import Mathlib

/-!
# Verification of the vector-search client against its specification

Shallow embedding of `src/main.py` (a Streamlit client that drives a
configure / submit / retrieve / rerank / fetch-results workflow against a
remote backend, with two layers of retry logic) and proofs about it.

Conventions:
* Machine floats that the code only passes around (`doc_correlation`,
  the `0.5 * attempt` sleep amounts) are modelled as rationals; the code
  performs no float arithmetic whose rounding could be observed.
* A `requests` response is modelled by its status code; a raised
  `requests.exceptions.RequestException` and a plain `Exception` are
  modelled as explicit outcome constructors.
-/

namespace VectorSearch

/-- `MAX_RETRIES = 10` from `src/main.py` line 21. -/
def MAX_RETRIES : Nat := 10

/-- `TIMEOUT = 10` (seconds) from `src/main.py` line 20. -/
def TIMEOUT : Nat := 10

/-- The retryable status codes of the urllib3 `Retry` strategy
(`status_forcelist=[502, 503, 504]`, `src/main.py` line 29). -/
def status_forcelist : List Nat := [502, 503, 504]

/-- The three options of the "Knowledge Retrieval Weight" radio widget
(`src/main.py` line 128). -/
inductive RetrievalWeight
  | Mixed
  | Semantic
  | Keyword
deriving DecidableEq, Repr

/-- The `config_data` dictionary built at `src/main.py` lines 147-153 and
stored in `st.session_state.search_config`: every key is always present
(`mixed_percentage` is defaulted to `50` before the dict is built). -/
structure SearchConfig where
  doc_correlation : ℚ
  recall_number : Int
  retrieval_weight : RetrievalWeight
  mixed_percentage : Int
  rerank_enabled : Bool
deriving DecidableEq, Repr

/-- The default configuration installed by `initialize_session_state`
(`src/main.py` lines 86-93). -/
def defaultConfig : SearchConfig :=
  { doc_correlation := 85 / 100
    recall_number := 10
    retrieval_weight := .Mixed
    mixed_percentage := 50
    rerank_enabled := false }

/-- The candidate as it exists inside `render_configuration_panel` before the
`config_data` dict is built: `mixed_percentage` is the Python variable that is
`None` unless the weight is `Mixed` (`src/main.py` lines 132-139). -/
structure CandidateConfig where
  doc_correlation : ℚ
  recall_number : Int
  retrieval_weight : RetrievalWeight
  mixed_percentage : Option Int
  rerank_enabled : Bool
deriving DecidableEq, Repr

/-- `render_configuration_panel`, lines 132-139: the `mixed_percentage`
variable is set from its slider only when the radio equals `"Mixed"`,
otherwise it stays `None`. -/
def panelCandidate (doc_correlation : ℚ) (recall_number : Int)
    (retrieval_weight : RetrievalWeight) (mixed_slider : Int)
    (rerank_enabled : Bool) : CandidateConfig :=
  { doc_correlation
    recall_number
    retrieval_weight
    mixed_percentage :=
      if retrieval_weight = .Mixed then some mixed_slider else none
    rerank_enabled }

/-- `render_configuration_panel`, lines 147-153: the `config_data` dict sent
to the backend and (on success) stored, with
`mixed_percentage if mixed_percentage is not None else 50`. -/
def configData (c : CandidateConfig) : SearchConfig :=
  { doc_correlation := c.doc_correlation
    recall_number := c.recall_number
    retrieval_weight := c.retrieval_weight
    mixed_percentage := c.mixed_percentage.getD 50
    rerank_enabled := c.rerank_enabled }

/-- The bounds the Streamlit input widgets enforce on the panel's inputs
(`st.sidebar.slider` `min_value`/`max_value` arguments, lines 111-139): a
slider can only yield a value inside its `[min_value, max_value]` range. -/
def panelInputsInBounds (doc_correlation : ℚ) (recall_number : Int)
    (mixed_slider : Int) : Prop :=
  0 ≤ doc_correlation ∧ doc_correlation ≤ 1 ∧
  1 ≤ recall_number ∧ recall_number ≤ 50 ∧
  0 ≤ mixed_slider ∧ mixed_slider ≤ 100

/-- Modelled from the spec (§3 validation invariant, for comparison with the
code): a candidate is valid iff `docCorrelation ∈ [0,1]`,
`recallNumber ∈ [1,50]`, `mixedPercentage` is present exactly when
`retrievalWeight = Mixed`, and a present `mixedPercentage` is in `[0,100]`. -/
def specValidCandidate (c : CandidateConfig) : Prop :=
  0 ≤ c.doc_correlation ∧ c.doc_correlation ≤ 1 ∧
  1 ≤ c.recall_number ∧ c.recall_number ≤ 50 ∧
  (c.mixed_percentage.isSome ↔ c.retrieval_weight = .Mixed) ∧
  (∀ p, c.mixed_percentage = some p → 0 ≤ p ∧ p ≤ 100)

instance (c : CandidateConfig) : Decidable (specValidCandidate c) := by
  unfold specValidCandidate
  exact inferInstance

/-! ## The two retry layers

`src/main.py` stacks two independent retry mechanisms:
* the urllib3 `Retry` strategy mounted on the session by
  `create_retry_session` (lines 23-34): `total=MAX_RETRIES`,
  `status_forcelist=[502, 503, 504]`, so one `session.get`/`session.post`
  issues up to `MAX_RETRIES + 1` low-level HTTP requests and raises a
  `RetryError` (a `RequestException`) when they are exhausted;
* the `with_retry` decorator (lines 36-58): re-invokes the whole decorated
  function on a `RequestException`, up to `MAX_RETRIES` invocations, with a
  `time.sleep(0.5 * attempt)` between consecutive invocations, and finally
  re-raises the last exception.
-/

/-- Outcome of one low-level HTTP exchange: the backend answered with a
status code, or the connection attempt failed. -/
inductive LowLevelOutcome
  | status (code : Nat)
  | connError
deriving DecidableEq, Repr

/-- What one `session.get`/`session.post` yields after the urllib3 retry
layer: a response object, or a raised `RequestException`
(`RetryError`/`ConnectionError` once the strategy is exhausted). -/
inductive SessionResult
  | response (code : Nat)
  | exception
deriving DecidableEq, Repr

/-- The urllib3 `Retry` loop of the mounted adapter (`create_retry_session`,
lines 26-33): request `i` is issued; a connection failure or a status in
`status_forcelist` consumes one unit of `total` and the next request is
issued; any other status is returned as the response; when `total` is
exhausted the call raises.  `lowLevel i` is the backend's behavior on the
i-th low-level request; the second component counts low-level requests
issued. -/
def sessionRun (lowLevel : Nat → LowLevelOutcome) : Nat → Nat → SessionResult × Nat
  | 0, _ => (.exception, 0)
  | fuel + 1, i =>
    match lowLevel i with
    | .connError =>
      let p := sessionRun lowLevel fuel (i + 1)
      (p.1, p.2 + 1)
    | .status c =>
      if c ∈ status_forcelist then
        let p := sessionRun lowLevel fuel (i + 1)
        (p.1, p.2 + 1)
      else (.response c, 1)

/-- One `session.get`/`session.post` through the adapter: `total=MAX_RETRIES`
allows `MAX_RETRIES` internal retries, i.e. up to `MAX_RETRIES + 1` low-level
requests. -/
def sessionCall (lowLevel : Nat → LowLevelOutcome) : SessionResult × Nat :=
  sessionRun lowLevel (MAX_RETRIES + 1) 0

/-- What one invocation of a `with_retry`-decorated function does: return a
value, raise a `requests.exceptions.RequestException` (caught and retried by
the decorator, line 48), or raise any other exception (which the decorator
does not catch and which therefore propagates at once). -/
inductive FuncOutcome (α : Type)
  | ok (a : α)
  | reqExc
  | otherExc
deriving DecidableEq, Repr

/-- How a `with_retry`-decorated call ends: a returned value, the
`raise last_exception` after the loop (line 57), or a non-`RequestException`
propagating out of the wrapped function. -/
inductive RetryOutcome (α : Type)
  | returned (a : α)
  | raisedLast
  | raisedOther
deriving DecidableEq, Repr

/-- Observable trace of one `with_retry`-decorated call: its final outcome,
the number of invocations of the wrapped function, the sleep durations (in
seconds, chronological), and the concatenated per-invocation events (e.g.
the HTTP requests each invocation issued). -/
structure RetryTrace (ε α : Type) where
  result : RetryOutcome α
  attempts : Nat
  sleeps : List ℚ
  events : List ε
deriving DecidableEq, Repr

/-- The backoff sleep `time.sleep(0.5 * attempt)` of line 52, in seconds:
`0.5 * i` where `i` is the value of the `attempt` counter (`0.5 * i` is
exact in binary floating point for every `i ≤ MAX_RETRIES`, so the rational
model is faithful). -/
def backoffAmount (i : Nat) : ℚ := (1 : ℚ) / 2 * (i : ℚ)

/-- The `with_retry` wrapper loop (lines 39-57), with `k` the value of the
Python `attempt` counter on entry and `fuel = MAX_RETRIES - k`:
`while attempt < MAX_RETRIES`: invoke the function; on a normal return or a
non-`RequestException` stop at once; on a `RequestException` increment
`attempt` and, if `attempt < MAX_RETRIES` still holds, sleep
`0.5 * attempt` seconds and loop, otherwise leave the loop and
`raise last_exception`.  `func k` gives the events and outcome of the k-th
invocation of the wrapped function. -/
def withRetryAux (func : Nat → List ε × FuncOutcome α) :
    Nat → Nat → RetryTrace ε α
  | 0, _ => ⟨.raisedLast, 0, [], []⟩
  | fuel + 1, k =>
    match func k with
    | (evs, .ok a) => ⟨.returned a, 1, [], evs⟩
    | (evs, .otherExc) => ⟨.raisedOther, 1, [], evs⟩
    | (evs, .reqExc) =>
      if k + 1 < MAX_RETRIES then
        let t := withRetryAux func fuel (k + 1)
        ⟨t.result, t.attempts + 1, backoffAmount (k + 1) :: t.sleeps,
          evs ++ t.events⟩
      else ⟨.raisedLast, 1, [], evs⟩

/-- A full `with_retry`-decorated call: the loop starts at `attempt = 0`. -/
def withRetry (func : Nat → List ε × FuncOutcome α) : RetryTrace ε α :=
  withRetryAux func MAX_RETRIES 0

/-! ## The HTTP requests the client issues

One entry per `session.get`/`session.post` call site, with its method, URL
path (relative to `BACKEND_URL`), timeout, and explicit headers. -/

/-- Method, path, timeout (seconds) and explicit headers of one call site. -/
structure RequestSpec where
  method : String
  path : String
  timeout : Nat
  headers : List (String × String)
deriving DecidableEq, Repr

/-- `check_backend_connection`, lines 69-73. -/
def probeRequest : RequestSpec :=
  ⟨"GET", "/docs", TIMEOUT, [("Connection", "close")]⟩

/-- `update_configuration`, lines 97-102. -/
def configureRequest : RequestSpec :=
  ⟨"POST", "/vector-search/configure", TIMEOUT, [("Connection", "close")]⟩

/-- `perform_search`, lines 169-173: the submit POST passes no `headers`
argument, so no `Connection: close` header is attached. -/
def submitRequest : RequestSpec :=
  ⟨"POST", "/query/submit", 30, []⟩

/-- `perform_search`, lines 178-181: the retrieve POST passes no `headers`
argument either. -/
def retrieveRequest : RequestSpec :=
  ⟨"POST", "/query/retrieve", 30, []⟩

/-- `perform_rerank`, lines 189-193. -/
def rerankRequest : RequestSpec :=
  ⟨"POST", "/vector-search/rerank", TIMEOUT, [("Connection", "close")]⟩

/-- `get_results`, lines 198-202. -/
def resultsRequest : RequestSpec :=
  ⟨"GET", "/vector-search/results", TIMEOUT, [("Connection", "close")]⟩

/-- Every call site of the client, in source order. -/
def clientRequests : List RequestSpec :=
  [probeRequest, configureRequest, submitRequest, retrieveRequest,
   rerankRequest, resultsRequest]

/-- A request disables persistent connection reuse iff it carries the
`Connection: close` header. -/
def disablesConnectionReuse (r : RequestSpec) : Bool :=
  ("Connection", "close") ∈ r.headers

/-! ## Configuration update (`update_configuration` + the Apply handler) -/

/-- Outcome of one `session` call as seen by the wrapped function: a response
object with a status code, or a raised `RequestException`. -/
inductive CallResult
  | response (code : Nat)
  | raised
deriving DecidableEq, Repr

/-- A configure POST as issued on the wire: the call site together with the
`params=config_data` payload. -/
structure ConfigurePost where
  request : RequestSpec
  params : SearchConfig
deriving DecidableEq, Repr

/-- One invocation of the body of `update_configuration` (lines 96-103): it
contains no validation of `config_data` — it unconditionally issues the
configure POST with `params=config_data` and returns the response; a
`RequestException` escapes to the decorator.  `net k` is the outcome of the
session call of the k-th invocation. -/
def update_configuration_attempt (net : Nat → CallResult)
    (config_data : SearchConfig) (k : Nat) :
    List ConfigurePost × FuncOutcome Nat :=
  ([⟨configureRequest, config_data⟩],
   match net k with
   | .response c => .ok c
   | .raised => .reqExc)

/-- The `with_retry`-decorated `update_configuration` (lines 95-103). -/
def update_configuration (net : Nat → CallResult) (config_data : SearchConfig) :
    RetryTrace ConfigurePost Nat :=
  withRetry (update_configuration_attempt net config_data)

/-- The Apply-Configuration click handler (`render_configuration_panel`,
lines 146-164): call `update_configuration`; if the returned response has
status exactly 200, store `config_data` into
`st.session_state.search_config` and show the success banner; on any other
status show an error and leave the stored configuration alone; a raised
exception is caught by `except Exception` and likewise leaves the stored
configuration alone.  Returns the stored configuration after the handler and
whether the success banner was shown. -/
def applyConfiguration (stored : SearchConfig) (config_data : SearchConfig)
    (net : Nat → CallResult) : SearchConfig × Bool :=
  match (update_configuration net config_data).result with
  | .returned c => if c = 200 then (config_data, true) else (stored, false)
  | .raisedLast => (stored, false)
  | .raisedOther => (stored, false)

/-! ## Health probe (`check_backend_connection`) -/

/-- The advisory sidebar indicator the probe updates. -/
inductive Advisory
  | connected
  | disconnected
deriving DecidableEq, Repr

/-- One invocation of the body of `check_backend_connection` (lines 66-81):
a single `session.get` of `/docs` with timeout `TIMEOUT` and
`Connection: close`; status 200 shows the connected banner, any other
status shows the failure banner, and the surrounding `except Exception`
swallows every exception (including the session's `RetryError`), also
showing the failure banner — so the invocation always returns normally and
the `with_retry` decorator never observes a `RequestException`.  Events:
one entry per low-level GET the session issued. -/
def check_backend_connection_attempt (lowLevel : Nat → LowLevelOutcome) :
    List Unit × FuncOutcome Advisory :=
  let p := sessionCall lowLevel
  (List.replicate p.2 (),
   .ok (match p.1 with
        | .response c => if c = 200 then .connected else .disconnected
        | .exception => .disconnected))

/-- The decorated `check_backend_connection` run by `__init__` (lines 62-66):
`lowLevel k i` is the backend's behavior on the i-th low-level GET of the
k-th decorator invocation. -/
def check_backend_connection (lowLevel : Nat → Nat → LowLevelOutcome) :
    RetryTrace Unit Advisory :=
  withRetry (fun k => check_backend_connection_attempt (lowLevel k))

/-! ## The search workflow (`perform_search`, `perform_rerank`,
`get_results`, `render_search_interface`) -/

/-- One entry of the JSON `results` array (`src/main.py` lines 231, 252-260):
`content`, `correlation`, `tokens`, optional `metadata` mapping. -/
structure SearchResult where
  content : String
  correlation : ℚ
  tokens : Int
  metadata : List (String × String)
deriving DecidableEq, Repr

/-- The four HTTP steps of one search workflow. -/
inductive Step
  | submit
  | retrieve
  | rerank
  | fetch
deriving DecidableEq, Repr

/-- Backend behavior for one search invocation: the outcome of the submit
and retrieve POSTs inside the k-th `perform_search` invocation, of the
session call of the k-th `perform_rerank` invocation, of the session call of
the k-th `get_results` invocation, and the `results` array of a successful
fetch. -/
structure SearchBackend where
  submit : Nat → CallResult
  retrieve : Nat → CallResult
  rerank : Nat → CallResult
  fetch : Nat → CallResult
  results : List SearchResult

/-- One invocation of the body of `perform_search` (lines 167-185): issue
the submit POST; a non-200 submit status raises a plain
`Exception("Query submission failed")` — not a `RequestException` — and the
retrieve POST is not issued; after a 200 submit the retrieve POST is issued;
a non-200 retrieve status raises a plain `Exception`; a 200 retrieve returns
its JSON body.  A `RequestException` from either session call escapes to
the decorator.  Events: the step requests issued, in order. -/
def perform_search_attempt (b : SearchBackend) (k : Nat) :
    List Step × FuncOutcome Unit :=
  match b.submit k with
  | .raised => ([.submit], .reqExc)
  | .response c =>
    if c = 200 then
      match b.retrieve k with
      | .raised => ([.submit, .retrieve], .reqExc)
      | .response c' =>
        if c' = 200 then ([.submit, .retrieve], .ok ())
        else ([.submit, .retrieve], .otherExc)
    else ([.submit], .otherExc)

/-- The decorated `perform_search`. -/
def perform_search (b : SearchBackend) : RetryTrace Step Unit :=
  withRetry (perform_search_attempt b)

/-- One invocation of the body of `perform_rerank` (lines 188-194): a single
session POST whose response — whatever its status — is returned. -/
def perform_rerank_attempt (b : SearchBackend) (k : Nat) :
    List Step × FuncOutcome Nat :=
  ([.rerank],
   match b.rerank k with
   | .response c => .ok c
   | .raised => .reqExc)

/-- The decorated `perform_rerank`. -/
def perform_rerank (b : SearchBackend) : RetryTrace Step Nat :=
  withRetry (perform_rerank_attempt b)

/-- One invocation of the body of `get_results` (lines 196-203): a single
session GET whose response — whatever its status — is returned. -/
def get_results_attempt (b : SearchBackend) (k : Nat) :
    List Step × FuncOutcome Nat :=
  ([.fetch],
   match b.fetch k with
   | .response c => .ok c
   | .raised => .reqExc)

/-- The decorated `get_results`. -/
def get_results (b : SearchBackend) : RetryTrace Step Nat :=
  withRetry (get_results_attempt b)

/-- Observable outcome of one search-button workflow: the step requests
issued in order, the result set stored in the session afterwards, whether
the rerank warning was shown, whether the success banner was shown, and
whether an error message was shown. -/
structure WorkflowTrace where
  steps : List Step
  finalResults : List SearchResult
  rerankWarning : Bool
  completed : Bool
  errorShown : Bool
deriving DecidableEq, Repr

/-- The tail of the workflow (lines 228-234): call `get_results`; on a 200
response store `results_response.json()["results"]` into
`st.session_state.search_results` and show the success banner; on a non-200
response show "Failed to fetch search results" and leave the stored results
alone; a raised exception is caught by the outer `except` (line 236). -/
def fetchPhase (prior : List SearchResult) (b : SearchBackend)
    (stepsSoFar : List Step) (warning : Bool) : WorkflowTrace :=
  match (get_results b).result with
  | .returned c =>
    if c = 200 then
      ⟨stepsSoFar ++ (get_results b).events, b.results, warning, true, false⟩
    else ⟨stepsSoFar ++ (get_results b).events, prior, warning, false, true⟩
  | .raisedLast => ⟨stepsSoFar ++ (get_results b).events, prior, warning, false, true⟩
  | .raisedOther => ⟨stepsSoFar ++ (get_results b).events, prior, warning, false, true⟩

/-- The optional rerank phase (lines 221-226): only when
`rerank_enabled` is set is `perform_rerank` called; a returned response with
non-200 status shows the "Reranking failed" warning and the workflow still
proceeds to the fetch phase; a raised exception is caught by the outer
`except` (line 236), ending the workflow with an error and without the fetch
phase. -/
def rerankPhase (cfg : SearchConfig) (prior : List SearchResult)
    (b : SearchBackend) (stepsSoFar : List Step) : WorkflowTrace :=
  if cfg.rerank_enabled then
    match (perform_rerank b).result with
    | .returned c =>
      fetchPhase prior b (stepsSoFar ++ (perform_rerank b).events) (c != 200)
    | .raisedLast =>
      ⟨stepsSoFar ++ (perform_rerank b).events, prior, false, false, true⟩
    | .raisedOther =>
      ⟨stepsSoFar ++ (perform_rerank b).events, prior, false, false, true⟩
  else fetchPhase prior b stepsSoFar false

/-- The search-button handler (`render_search_interface`, lines 215-237),
for a pressed button with a non-empty query: call `perform_search`; any
exception out of it (a non-200 submit or retrieve status, or exhausted
transport retries) is caught by the outer `except`, showing an error and
executing no further step; on success continue with the rerank and fetch
phases.  `cfg` is `st.session_state.search_config`, `prior` the stored
`st.session_state.search_results`. -/
def render_search_interface (cfg : SearchConfig) (prior : List SearchResult)
    (b : SearchBackend) : WorkflowTrace :=
  match (perform_search b).result with
  | .returned _ => rerankPhase cfg prior b (perform_search b).events
  | .raisedLast => ⟨(perform_search b).events, prior, false, false, true⟩
  | .raisedOther => ⟨(perform_search b).events, prior, false, false, true⟩

/-! ## The operation of claim C6: one decorated call whose body makes one
session call, against an explicit low-level backend -/

/-- A `with_retry`-decorated operation whose body issues exactly one session
call (`update_configuration`, `perform_rerank`, `get_results` all have this
shape): `lowLevel k i` is the backend's behavior on the i-th low-level HTTP
request of the k-th decorator invocation.  Events: one entry per low-level
HTTP request issued, across all invocations. -/
def operationUnderBothLayers (lowLevel : Nat → Nat → LowLevelOutcome) :
    RetryTrace Unit Nat :=
  withRetry (fun k =>
    let p := sessionCall (lowLevel k)
    (List.replicate p.2 (),
     match p.1 with
     | .response c => .ok c
     | .exception => .reqExc))

/-- A backend that answers 503 to every request. -/
def always503 : Nat → Nat → LowLevelOutcome := fun _ _ => .status 503

/-! ## Concrete fixtures used in counterexamples and witnesses -/

/-- A backend on which every step succeeds with one result
(the §8 scenario: `content "doc A"`, `correlation 0.93`, `tokens 128`). -/
def bOk : SearchBackend :=
  { submit := fun _ => .response 200
    retrieve := fun _ => .response 200
    rerank := fun _ => .response 200
    fetch := fun _ => .response 200
    results := [⟨"doc A", 93 / 100, 128, [("source", "doc1")]⟩] }

/-- Like `bOk` but every submit POST answers 500. -/
def bSubmitFail : SearchBackend :=
  { bOk with submit := fun _ => .response 500 }

/-- Like `bOk` but every rerank session call raises a transport exception. -/
def bRerankExc : SearchBackend :=
  { bOk with rerank := fun _ => .raised }

/-- Like `bOk` but every rerank call answers 500. -/
def bRerank500 : SearchBackend :=
  { bOk with rerank := fun _ => .response 500 }

/-- The default configuration with the rerank checkbox ticked. -/
def cfgRerank : SearchConfig := { defaultConfig with rerank_enabled := true }

/-- A candidate configuration differing from the default. -/
def candidate20 : SearchConfig := { defaultConfig with recall_number := 20 }

/-- An out-of-range candidate: `recall_number = 0` lies outside `[1, 50]`. -/
def badCandidate : CandidateConfig :=
  { doc_correlation := 85 / 100
    recall_number := 0
    retrieval_weight := .Mixed
    mixed_percentage := some 50
    rerank_enabled := false }

/-- A wrapped function that fails with a `RequestException` on every
invocation and issues no events. -/
def alwaysReqExc : Nat → List Unit × FuncOutcome Unit :=
  fun _ => ([], .reqExc)

/-! ## General lemmas about the two retry layers -/

theorem withRetry_ok {ε α : Type} {func : Nat → List ε × FuncOutcome α}
    {evs : List ε} {a : α} (h : func 0 = (evs, .ok a)) :
    withRetry func = ⟨.returned a, 1, [], evs⟩ := by
  unfold withRetry
  rw [show MAX_RETRIES = 9 + 1 from rfl, withRetryAux, h]

theorem withRetry_otherExc {ε α : Type} {func : Nat → List ε × FuncOutcome α}
    {evs : List ε} (h : func 0 = (evs, .otherExc)) :
    withRetry func = ⟨.raisedOther, 1, [], evs⟩ := by
  unfold withRetry
  rw [show MAX_RETRIES = 9 + 1 from rfl, withRetryAux, h]

theorem mem_events_withRetryAux {ε α : Type}
    (func : Nat → List ε × FuncOutcome α) :
    ∀ (fuel k : Nat) (e : ε), e ∈ (withRetryAux func fuel k).events →
      ∃ j, e ∈ (func j).1 := by
  intro fuel
  induction fuel with
  | zero => intro k e he; simp [withRetryAux] at he
  | succ fuel ih =>
    intro k e he
    rw [withRetryAux] at he
    rcases hf : func k with ⟨evs, o⟩
    rw [hf] at he
    cases o with
    | ok a => exact ⟨k, by rw [hf]; simpa using he⟩
    | otherExc => exact ⟨k, by rw [hf]; simpa using he⟩
    | reqExc =>
      by_cases hk : k + 1 < MAX_RETRIES
      · simp only [hk, if_true] at he
        rcases List.mem_append.mp he with h1 | h2
        · exact ⟨k, by rw [hf]; exact h1⟩
        · exact ih (k + 1) e h2
      · simp only [hk, if_false] at he
        exact ⟨k, by rw [hf]; exact he⟩

theorem withRetryAux_events_prefix {ε α : Type}
    (func : Nat → List ε × FuncOutcome α) (fuel k : Nat) :
    ∃ rest, (withRetryAux func (fuel + 1) k).events = (func k).1 ++ rest := by
  rw [withRetryAux]
  rcases hf : func k with ⟨evs, o⟩
  cases o with
  | ok a => exact ⟨[], by simp [hf]⟩
  | otherExc => exact ⟨[], by simp [hf]⟩
  | reqExc =>
    by_cases hk : k + 1 < MAX_RETRIES
    · exact ⟨(withRetryAux func fuel (k + 1)).events, by simp [hf, hk]⟩
    · exact ⟨[], by simp [hf, hk]⟩

theorem withRetryAux_result_congr {ε ε' α : Type}
    {f : Nat → List ε × FuncOutcome α} {g : Nat → List ε' × FuncOutcome α}
    (h : ∀ k, (f k).2 = (g k).2) :
    ∀ (fuel k : Nat),
      (withRetryAux f fuel k).result = (withRetryAux g fuel k).result ∧
      (withRetryAux f fuel k).attempts = (withRetryAux g fuel k).attempts ∧
      (withRetryAux f fuel k).sleeps = (withRetryAux g fuel k).sleeps := by
  intro fuel
  induction fuel with
  | zero => intro k; simp [withRetryAux]
  | succ fuel ih =>
    intro k
    have hk := h k
    rw [withRetryAux, withRetryAux]
    rcases hf : f k with ⟨evs, o⟩
    rcases hg : g k with ⟨evs', o'⟩
    rw [hf, hg] at hk
    dsimp only at hk
    subst hk
    cases o with
    | ok a => simp
    | otherExc => simp
    | reqExc =>
      by_cases hlt : k + 1 < MAX_RETRIES
      · simp only [hlt, if_true]
        exact ⟨(ih (k + 1)).1, by simp [(ih (k + 1)).2.1], by simp [(ih (k + 1)).2.2]⟩
      · simp [hlt]

theorem withRetryAux_sleeps_closed {ε α : Type}
    (func : Nat → List ε × FuncOutcome α) :
    ∀ (fuel k : Nat), ∃ m,
      (withRetryAux func fuel k).sleeps =
        (List.range' (k + 1) m).map backoffAmount := by
  intro fuel
  induction fuel with
  | zero => intro k; exact ⟨0, by simp [withRetryAux]⟩
  | succ fuel ih =>
    intro k
    rw [withRetryAux]
    rcases hf : func k with ⟨evs, o⟩
    cases o with
    | ok a => exact ⟨0, by simp⟩
    | otherExc => exact ⟨0, by simp⟩
    | reqExc =>
      by_cases hk : k + 1 < MAX_RETRIES
      · rcases ih (k + 1) with ⟨m, hm⟩
        refine ⟨m + 1, ?_⟩
        simp only [hk, if_true]
        rw [List.range'_succ (k + 1) m 1, List.map_cons, ← hm]
      · exact ⟨0, by simp [hk]⟩

theorem sessionRun_count_le {lowLevel : Nat → LowLevelOutcome} :
    ∀ (fuel i : Nat), (sessionRun lowLevel fuel i).2 ≤ fuel := by
  intro fuel
  induction fuel with
  | zero => intro i; simp [sessionRun]
  | succ fuel ih =>
    intro i
    rw [sessionRun]
    cases h : lowLevel i with
    | connError => simpa using ih (i + 1)
    | status c =>
      by_cases hc : c ∈ status_forcelist
      · simp only [hc, if_true]
        simpa using ih (i + 1)
      · simp [hc]

theorem sessionRun_count_pos {lowLevel : Nat → LowLevelOutcome} :
    ∀ (fuel i : Nat), 0 < fuel → 1 ≤ (sessionRun lowLevel fuel i).2 := by
  intro fuel
  induction fuel with
  | zero => intro i h; exact absurd h (by simp)
  | succ fuel ih =>
    intro i _
    rw [sessionRun]
    cases h : lowLevel i with
    | connError => simp
    | status c =>
      by_cases hc : c ∈ status_forcelist
      · simp [hc]
      · simp [hc]

/-! ## Lemmas about the search workflow -/

theorem perform_search_attempt_events (b : SearchBackend) (k : Nat) :
    (perform_search_attempt b k).1 = [Step.submit] ∨
    (perform_search_attempt b k).1 = [Step.submit, Step.retrieve] := by
  unfold perform_search_attempt
  rcases hs : b.submit k with c | _
  · by_cases hc : c = 200
    · rcases hr : b.retrieve k with c' | _
      · by_cases hc' : c' = 200 <;> simp [hc, hc']
      · simp [hc]
    · simp [hc]
  · simp

theorem fetch_not_mem_perform_search_events (b : SearchBackend) :
    Step.fetch ∉ (perform_search b).events := by
  intro h
  rcases mem_events_withRetryAux (perform_search_attempt b)
      MAX_RETRIES 0 Step.fetch h with ⟨j, hj⟩
  rcases perform_search_attempt_events b j with he | he <;>
    rw [he] at hj <;> simp at hj

theorem fetch_not_mem_perform_rerank_events (b : SearchBackend) :
    Step.fetch ∉ (perform_rerank b).events := by
  intro h
  rcases mem_events_withRetryAux (perform_rerank_attempt b)
      MAX_RETRIES 0 Step.fetch h with ⟨j, hj⟩
  simp [perform_rerank_attempt] at hj

/-- Exhaustive outcome analysis of the fetch phase: either a 200-status
fetch completed the workflow and installed the backend's results, or the
workflow ended with an error, the prior results untouched, and the fetch
call did not return a 200 response. -/
theorem fetchPhase_cases (prior : List SearchResult) (b : SearchBackend)
    (stepsSoFar : List Step) (warning : Bool) :
    ((fetchPhase prior b stepsSoFar warning).completed = true ∧
     (fetchPhase prior b stepsSoFar warning).finalResults = b.results ∧
     (fetchPhase prior b stepsSoFar warning).errorShown = false ∧
     (get_results b).result = .returned 200) ∨
    ((fetchPhase prior b stepsSoFar warning).completed = false ∧
     (fetchPhase prior b stepsSoFar warning).finalResults = prior ∧
     (fetchPhase prior b stepsSoFar warning).errorShown = true ∧
     (get_results b).result ≠ .returned 200) := by
  unfold fetchPhase
  rcases hg : (get_results b).result with c | _ | _
  · by_cases hc : c = 200
    · subst hc; left; simp
    · right; simp [hc]
  · right; simp
  · right; simp

/-- Exhaustive outcome analysis of one search-button workflow: a completed
workflow has a 200-status fetch behind it and installs the backend's
results; every other path shows an error, leaves the prior results
untouched, and — if the fetch step was reached at all — did not see a
200-status fetch response. -/
theorem render_search_cases (cfg : SearchConfig) (prior : List SearchResult)
    (b : SearchBackend) :
    ((render_search_interface cfg prior b).completed = true ∧
     (render_search_interface cfg prior b).finalResults = b.results ∧
     (render_search_interface cfg prior b).errorShown = false ∧
     (get_results b).result = .returned 200) ∨
    ((render_search_interface cfg prior b).completed = false ∧
     (render_search_interface cfg prior b).finalResults = prior ∧
     (render_search_interface cfg prior b).errorShown = true ∧
     (Step.fetch ∈ (render_search_interface cfg prior b).steps →
       (get_results b).result ≠ .returned 200)) := by
  unfold render_search_interface
  rcases hs : (perform_search b).result with u | _ | _
  · unfold rerankPhase
    by_cases hre : cfg.rerank_enabled = true
    · simp only [hre, if_true]
      rcases hr : (perform_rerank b).result with c | _ | _
      · rcases fetchPhase_cases prior b
            ((perform_search b).events ++ (perform_rerank b).events)
            (c != 200) with ⟨h1, h2, h3, h4⟩ | ⟨h1, h2, h3, h4⟩
        · exact Or.inl ⟨h1, h2, h3, h4⟩
        · exact Or.inr ⟨h1, h2, h3, fun _ => h4⟩
      · refine Or.inr ⟨rfl, rfl, rfl, fun hmem => absurd hmem ?_⟩
        simp only [List.mem_append, not_or]
        exact ⟨fetch_not_mem_perform_search_events b,
               fetch_not_mem_perform_rerank_events b⟩
      · refine Or.inr ⟨rfl, rfl, rfl, fun hmem => absurd hmem ?_⟩
        simp only [List.mem_append, not_or]
        exact ⟨fetch_not_mem_perform_search_events b,
               fetch_not_mem_perform_rerank_events b⟩
    · simp only [Bool.not_eq_true] at hre
      simp only [hre, Bool.false_eq_true, if_false]
      rcases fetchPhase_cases prior b (perform_search b).events false with
        ⟨h1, h2, h3, h4⟩ | ⟨h1, h2, h3, h4⟩
      · exact Or.inl ⟨h1, h2, h3, h4⟩
      · exact Or.inr ⟨h1, h2, h3, fun _ => h4⟩
  · exact Or.inr ⟨rfl, rfl, rfl,
      fun hmem => absurd hmem (fetch_not_mem_perform_search_events b)⟩
  · exact Or.inr ⟨rfl, rfl, rfl,
      fun hmem => absurd hmem (fetch_not_mem_perform_search_events b)⟩

/-! ## Claim C1 — configuration replaced on success, untouched otherwise -/

/-- **C1, counterexample.** The claim says a 200-class (2xx) response makes
the store replace its configuration, but the handler tests
`response.status_code == 200` exactly: on a 201 response — which is
200-class — the stored configuration is NOT replaced and no success is
reported, refuting the claim at this input. -/
theorem claim_C1_counterexample :
    (200 ≤ 201 ∧ 201 < 300) ∧
    applyConfiguration defaultConfig candidate20 (fun _ => .response 201) =
      (defaultConfig, false) ∧
    candidate20 ≠ defaultConfig := by
  refine ⟨by decide, rfl, fun h => ?_⟩
  exact absurd (congrArg SearchConfig.recall_number h) (by decide)

/-- **C1, amended.** For every configuration-update attempt: if the
decorated configure call returns a response with status exactly 200, the
stored configuration is replaced with the candidate and success is
reported; on any other outcome (a response with any other status — 2xx or
not — or a raised exception) the stored configuration is exactly what it
was before the call and no success is reported. -/
theorem claim_C1_theorem (stored config_data : SearchConfig)
    (net : Nat → CallResult) :
    (applyConfiguration stored config_data net = (config_data, true) ∧
       (update_configuration net config_data).result = .returned 200) ∨
    (applyConfiguration stored config_data net = (stored, false) ∧
       (update_configuration net config_data).result ≠ .returned 200) := by
  rcases hr : (update_configuration net config_data).result with c | _ | _
  · by_cases hc : c = 200
    · subst hc
      exact Or.inl ⟨by simp [applyConfiguration, hr], rfl⟩
    · exact Or.inr ⟨by simp [applyConfiguration, hr, hc], by simp [hc]⟩
  · exact Or.inr ⟨by simp [applyConfiguration, hr], by simp⟩
  · exact Or.inr ⟨by simp [applyConfiguration, hr], by simp⟩

/-! ## Claim C2 — local validation -/

/-- **C2, counterexample.** The code contains no local validation at all:
for a candidate whose `recall_number = 0` lies outside `[1, 50]`, the update
operation still issues the configure POST (one network call, not zero),
raises no `ValidationError`, and — if the backend answers 200 — even stores
the invalid configuration. -/
theorem claim_C2_counterexample :
    ¬ specValidCandidate badCandidate ∧
    (update_configuration (fun _ => .response 200)
        (configData badCandidate)).events.length = 1 ∧
    applyConfiguration defaultConfig (configData badCandidate)
        (fun _ => .response 200) = (configData badCandidate, true) := by
  refine ⟨fun h => absurd h.2.2.1 (by decide), rfl, rfl⟩

/-- **C2, amended.** The update operation performs no local validation and
raises no `ValidationError`: every invocation of its body issues the
configure POST (at least one network call, each carrying the candidate as
`params`), and its outcome depends only on the network's behavior, not on
the candidate.  Out-of-range candidates cannot arise through the panel,
because the input widgets bound each field (`doc_correlation ∈ [0, 1]`,
`recall_number ∈ [1, 50]`, `mixed_percentage ∈ [0, 100]`) and the
`mixed_percentage` variable is set exactly when the weight is `Mixed`, so
every candidate the panel builds satisfies the spec's validity predicate. -/
theorem claim_C2_theorem :
    (∀ (dc : ℚ) (rn : Int) (w : RetrievalWeight) (ms : Int) (re : Bool),
       panelInputsInBounds dc rn ms →
       specValidCandidate (panelCandidate dc rn w ms re)) ∧
    (∀ (config_data : SearchConfig) (net : Nat → CallResult),
       1 ≤ (update_configuration net config_data).events.length ∧
       ∀ e ∈ (update_configuration net config_data).events,
         e = ⟨configureRequest, config_data⟩) ∧
    (∀ (c1 c2 : SearchConfig) (net : Nat → CallResult),
       (update_configuration net c1).result =
         (update_configuration net c2).result) := by
  refine ⟨?_, ?_, ?_⟩
  · intro dc rn w ms re h
    rcases h with ⟨h1, h2, h3, h4, h5, h6⟩
    cases w with
    | Mixed =>
      refine ⟨h1, h2, h3, h4, by simp [panelCandidate], ?_⟩
      intro p hp
      simp [panelCandidate] at hp
      exact hp ▸ ⟨h5, h6⟩
    | Semantic =>
      exact ⟨h1, h2, h3, h4, by simp [panelCandidate], by simp [panelCandidate]⟩
    | Keyword =>
      exact ⟨h1, h2, h3, h4, by simp [panelCandidate], by simp [panelCandidate]⟩
  · intro config_data net
    constructor
    · rcases withRetryAux_events_prefix
          (update_configuration_attempt net config_data) 9 0 with ⟨rest, hr⟩
      have : (update_configuration net config_data).events =
          ⟨configureRequest, config_data⟩ :: rest := hr
      simp [this]
    · intro e he
      rcases mem_events_withRetryAux
          (update_configuration_attempt net config_data)
          MAX_RETRIES 0 e he with ⟨j, hj⟩
      simpa [update_configuration_attempt] using hj
  · intro c1 c2 net
    exact (withRetryAux_result_congr
      (f := update_configuration_attempt net c1)
      (g := update_configuration_attempt net c2)
      (fun k => rfl) MAX_RETRIES 0).1

/-- **C2, witness.** The amended theorem applied at a concrete in-bounds
panel input (Semantic weight) and at a concrete update call. -/
theorem claim_C2_witness :
    specValidCandidate (panelCandidate (1 / 2) 10 .Semantic 50 false) ∧
    1 ≤ (update_configuration (fun _ => .response 200) defaultConfig).events.length :=
  ⟨claim_C2_theorem.1 (1 / 2) 10 .Semantic 50 false
     (by norm_num [panelInputsInBounds]),
   (claim_C2_theorem.2.1 defaultConfig (fun _ => .response 200)).1⟩

/-! ## Claim C10 — `mixed_percentage` defaulted to 50 -/

/-- **C10.** For every applied configuration whose retrieval weight is not
`Mixed`, the `config_data` object — sent to the backend as `params` and
stored in the session on success — still contains the concrete value
`mixed_percentage = 50`: the `None` placeholder of lines 132-139 is replaced
by `50` when the dict is built (line 151), so the field is never absent. -/
theorem claim_C10_theorem (dc : ℚ) (rn : Int) (w : RetrievalWeight)
    (ms : Int) (re : Bool) (hw : w ≠ .Mixed) :
    (configData (panelCandidate dc rn w ms re)).mixed_percentage = 50 := by
  cases w with
  | Mixed => exact absurd rfl hw
  | Semantic => simp [configData, panelCandidate]
  | Keyword => simp [configData, panelCandidate]

/-- **C10, witness**: the §8 scenario configuration (Semantic weight). -/
theorem claim_C10_witness :
    (configData (panelCandidate (9 / 10) 20 .Semantic 50 false)).mixed_percentage
      = 50 :=
  claim_C10_theorem (9 / 10) 20 .Semantic 50 false (by decide)

/-! ## Claim C3 — submit-before-retrieve sequencing -/

/-- **C3.** In every search invocation, the retrieve POST of an attempt is
issued only if the submit POST of that same attempt already returned a 200
response (first conjunct, for every attempt `k`); and a submit that fails
with a non-200 status raises immediately, ending the whole workflow with the
submit error: only the submit request was issued, the prior results are
untouched, and no retrieve, rerank or fetch-results step executes (second
conjunct). -/
theorem claim_C3_theorem (cfg : SearchConfig) (prior : List SearchResult)
    (b : SearchBackend) :
    (∀ k, Step.retrieve ∈ (perform_search_attempt b k).1 →
       b.submit k = .response 200) ∧
    (∀ c, b.submit 0 = .response c → c ≠ 200 →
       render_search_interface cfg prior b =
         ⟨[Step.submit], prior, false, false, true⟩) := by
  constructor
  · intro k hmem
    unfold perform_search_attempt at hmem
    rcases hs : b.submit k with c | _
    · rw [hs] at hmem
      by_cases hc : c = 200
      · rw [hc]
      · simp [hc] at hmem
    · rw [hs] at hmem
      simp at hmem
  · intro c hb hc
    have hatt : perform_search_attempt b 0 = ([Step.submit], .otherExc) := by
      unfold perform_search_attempt
      rw [hb]
      simp [hc]
    have hs : perform_search b =
        ⟨.raisedOther, 1, [], [Step.submit]⟩ := withRetry_otherExc hatt
    unfold render_search_interface
    rw [hs]

/-- **C3, witness**: a backend whose submit answers 500 ends the workflow
with only the submit step issued; on a fully successful backend the
sequencing hypothesis of attempt 0 is satisfiable and yields the submit
success. -/
theorem claim_C3_witness :
    render_search_interface defaultConfig [] bSubmitFail =
      ⟨[Step.submit], [], false, false, true⟩ ∧
    bOk.submit 0 = .response 200 :=
  ⟨(claim_C3_theorem defaultConfig [] bSubmitFail).2 500 rfl (by decide),
   (claim_C3_theorem defaultConfig [] bOk).1 0 (by decide)⟩

/-! ## Claim C4 — rerank failure handling -/

/-- **C4, counterexample.** The claim says every rerank failure is
non-fatal, but only a rerank *response* with non-200 status is: when the
rerank session call raises a transport exception on every attempt (so the
decorated `perform_rerank` re-raises after its retries), the exception is
caught by the workflow's outer `except`, the workflow fails, no warning is
recorded, and the fetch-results step never executes. -/
theorem claim_C4_counterexample :
    cfgRerank.rerank_enabled = true ∧
    (render_search_interface cfgRerank [] bRerankExc).completed = false ∧
    (render_search_interface cfgRerank [] bRerankExc).errorShown = true ∧
    (render_search_interface cfgRerank [] bRerankExc).rerankWarning = false ∧
    Step.fetch ∉ (render_search_interface cfgRerank [] bRerankExc).steps := by
  decide

/-- **C4, amended.** With rerank enabled and submit/retrieve succeeding: a
rerank call that returns a response with non-200 status (e.g. 500) is
non-fatal — the warning is recorded and the workflow proceeds to
fetch-results and, when the fetch returns 200, completes with the fetched
results (first conjunct); but a rerank call whose session raises a transport
exception on every attempt aborts the workflow — error shown, prior results
untouched, fetch-results never executed (second conjunct). -/
theorem claim_C4_theorem (cfg : SearchConfig) (prior : List SearchResult)
    (b : SearchBackend)
    (hre : cfg.rerank_enabled = true)
    (hsub : b.submit 0 = .response 200)
    (hret : b.retrieve 0 = .response 200) :
    (∀ c, b.rerank 0 = .response c → c ≠ 200 → b.fetch 0 = .response 200 →
       render_search_interface cfg prior b =
         ⟨[Step.submit, Step.retrieve, Step.rerank, Step.fetch], b.results,
           true, true, false⟩) ∧
    ((∀ k, b.rerank k = .raised) →
       (render_search_interface cfg prior b).completed = false ∧
       (render_search_interface cfg prior b).errorShown = true ∧
       (render_search_interface cfg prior b).finalResults = prior ∧
       Step.fetch ∉ (render_search_interface cfg prior b).steps) := by
  have hatt : perform_search_attempt b 0 =
      ([Step.submit, Step.retrieve], .ok ()) := by
    unfold perform_search_attempt
    rw [hsub, hret]
    simp
  have hs : perform_search b =
      ⟨.returned (), 1, [], [Step.submit, Step.retrieve]⟩ := withRetry_ok hatt
  constructor
  · intro c hrr hc hf
    have hratt : perform_rerank_attempt b 0 = ([Step.rerank], .ok c) := by
      unfold perform_rerank_attempt
      rw [hrr]
    have hr : perform_rerank b = ⟨.returned c, 1, [], [Step.rerank]⟩ :=
      withRetry_ok hratt
    have hfatt : get_results_attempt b 0 = ([Step.fetch], .ok 200) := by
      unfold get_results_attempt
      rw [hf]
    have hg : get_results b = ⟨.returned 200, 1, [], [Step.fetch]⟩ :=
      withRetry_ok hfatt
    unfold render_search_interface rerankPhase fetchPhase
    rw [hs, hr, hg]
    simp [hre, bne_iff_ne, hc]
  · intro hraised
    have hrr : (perform_rerank b).result = .raisedLast := by
      have hcongr := (withRetryAux_result_congr
        (f := perform_rerank_attempt b)
        (g := fun _ => (([] : List Unit), (FuncOutcome.reqExc : FuncOutcome Nat)))
        (fun k => by simp [perform_rerank_attempt, hraised k]) MAX_RETRIES 0).1
      exact hcongr.trans (by decide)
    unfold render_search_interface rerankPhase
    rw [hs]
    simp only [hre, if_true]
    rw [hrr]
    refine ⟨rfl, rfl, rfl, ?_⟩
    intro hmem
    simp only [List.mem_append] at hmem
    rcases hmem with h | h
    · simp at h
    · exact fetch_not_mem_perform_rerank_events b h

/-- **C4, witness**: the amended theorem at a backend whose rerank answers
500 (non-fatal, completes with results) and at one whose rerank raises on
every attempt (fatal, no fetch). -/
theorem claim_C4_witness :
    render_search_interface cfgRerank [] bRerank500 =
      ⟨[Step.submit, Step.retrieve, Step.rerank, Step.fetch],
        bRerank500.results, true, true, false⟩ ∧
    ((render_search_interface cfgRerank [] bRerankExc).completed = false ∧
     (render_search_interface cfgRerank [] bRerankExc).errorShown = true ∧
     (render_search_interface cfgRerank [] bRerankExc).finalResults = [] ∧
     Step.fetch ∉ (render_search_interface cfgRerank [] bRerankExc).steps) :=
  ⟨(claim_C4_theorem cfgRerank [] bRerank500 rfl rfl rfl).1 500 rfl
     (by decide) rfl,
   (claim_C4_theorem cfgRerank [] bRerankExc rfl rfl rfl).2 (fun _ => rfl)⟩

/-! ## Claim C5 — results replaced only by a successful fetch -/

/-- **C5.** For every search invocation: if the workflow did not complete —
any fatally failing step — the session's prior result set is left untouched
(first conjunct); a completed workflow stores exactly the backend's fetched
results (second conjunct); and whenever the fetch-results step was executed
and returned 200, the workflow completed and the fetched results replaced
the session's result set (third conjunct). -/
theorem claim_C5_theorem (cfg : SearchConfig) (prior : List SearchResult)
    (b : SearchBackend) :
    ((render_search_interface cfg prior b).completed = false →
       (render_search_interface cfg prior b).finalResults = prior) ∧
    ((render_search_interface cfg prior b).completed = true →
       (render_search_interface cfg prior b).finalResults = b.results) ∧
    (Step.fetch ∈ (render_search_interface cfg prior b).steps →
       (get_results b).result = .returned 200 →
       (render_search_interface cfg prior b).finalResults = b.results ∧
       (render_search_interface cfg prior b).completed = true) := by
  rcases render_search_cases cfg prior b with
    ⟨h1, h2, h3, h4⟩ | ⟨h1, h2, h3, h4⟩
  · refine ⟨fun hf => absurd (h1.symm.trans hf) (by decide), fun _ => h2,
      fun _ _ => ⟨h2, h1⟩⟩
  · refine ⟨fun _ => h2, fun ht => absurd (h1.symm.trans ht) (by decide),
      fun hmem h200 => absurd h200 (h4 hmem)⟩

/-- **C5, witness**: on a fully successful backend the fetched results are
installed and the workflow completes; on a failing-submit backend the prior
(empty) result set is untouched. -/
theorem claim_C5_witness :
    ((render_search_interface defaultConfig [] bOk).finalResults =
       bOk.results ∧
     (render_search_interface defaultConfig [] bOk).completed = true) ∧
    (render_search_interface defaultConfig [] bSubmitFail).finalResults = [] :=
  ⟨(claim_C5_theorem defaultConfig [] bOk).2.2 (by decide) (by decide),
   (claim_C5_theorem defaultConfig [] bSubmitFail).1 (by decide)⟩

/-! ## Claim C6 — attempts against an always-503 backend -/

/-- **C6, counterexample.** Against a backend answering 503 to every
request, the operation does not make `MAX_RETRIES = 10` attempts: the two
stacked retry layers issue 110 low-level HTTP requests in total — the
decorator re-invokes the body 10 times and each body invocation's session
call internally issues `MAX_RETRIES + 1 = 11` requests (urllib3
`total=MAX_RETRIES` counts retries, not requests), which already exceeds
`MAX_RETRIES` for a single session call. -/
theorem claim_C6_counterexample :
    (operationUnderBothLayers always503).events.length = 110 ∧
    (operationUnderBothLayers always503).events.length ≠ MAX_RETRIES ∧
    (sessionCall (always503 0)).2 = 11 ∧
    (sessionCall (always503 0)).2 ≠ MAX_RETRIES := by
  decide

/-- **C6, amended.** Against an always-503 backend, the decorated operation
invokes its body exactly `MAX_RETRIES` times, every session call issues
exactly `MAX_RETRIES + 1` low-level requests, the backend therefore sees
`MAX_RETRIES × (MAX_RETRIES + 1) = 110` requests in total, and the call
finally re-raises the last observed error (`raise last_exception`). -/
theorem claim_C6_theorem :
    (operationUnderBothLayers always503).attempts = MAX_RETRIES ∧
    (∀ k, (sessionCall (always503 k)).2 = MAX_RETRIES + 1) ∧
    (operationUnderBothLayers always503).events.length =
      MAX_RETRIES * (MAX_RETRIES + 1) ∧
    (operationUnderBothLayers always503).result = .raisedLast := by
  refine ⟨by decide, fun k => rfl, by decide, by decide⟩

/-! ## Claim C7 — backoff sleep amounts -/

theorem withRetry_sleeps_getD {ε α : Type}
    (func : Nat → List ε × FuncOutcome α) (i : Nat)
    (hi : i < (withRetry func).sleeps.length) :
    (withRetry func).sleeps.getD i 0 = backoffAmount (i + 1) := by
  rcases withRetryAux_sleeps_closed func MAX_RETRIES 0 with ⟨m, hm⟩
  unfold withRetry at hi ⊢
  rw [hm] at hi ⊢
  have him : i < m := by simpa using hi
  rw [List.getD_eq_getElem?_getD, List.getElem?_map,
    List.getElem?_eq_getElem (by simpa using him)]
  simp [List.getElem_range'_1, Nat.add_comm]

/-- **C7.** For every `with_retry`-decorated call: the i-th recorded backoff
sleep — the one `time.sleep(0.5 * attempt)` executes when the `attempt`
counter equals `i + 1`, i.e. before retry number `i + 1` — lasts exactly
`0.5 × (i + 1)` seconds, and the sequence of backoff delays across
successive retries of one call is non-decreasing. -/
theorem claim_C7_theorem (ε α : Type) (func : Nat → List ε × FuncOutcome α)
    (i j : Nat)
    (hi : i < (withRetry func).sleeps.length)
    (hj : j < (withRetry func).sleeps.length)
    (hij : i ≤ j) :
    (withRetry func).sleeps.getD i 0 = backoffAmount (i + 1) ∧
    (withRetry func).sleeps.getD i 0 ≤ (withRetry func).sleeps.getD j 0 := by
  refine ⟨withRetry_sleeps_getD func i hi, ?_⟩
  rw [withRetry_sleeps_getD func i hi, withRetry_sleeps_getD func j hj]
  unfold backoffAmount
  have hc : ((i + 1 : Nat) : ℚ) ≤ ((j + 1 : Nat) : ℚ) := by
    exact_mod_cast Nat.succ_le_succ hij
  exact mul_le_mul_of_nonneg_left hc (by norm_num)

/-- **C7, witness**: a call failing on every attempt sleeps `0.5` seconds
before its first retry, no more than before its second. -/
theorem claim_C7_witness :
    (withRetry alwaysReqExc).sleeps.getD 0 0 = backoffAmount 1 ∧
    (withRetry alwaysReqExc).sleeps.getD 0 0 ≤
      (withRetry alwaysReqExc).sleeps.getD 1 0 :=
  claim_C7_theorem Unit Unit alwaysReqExc 0 1 (by decide) (by decide)
    (by decide)

/-! ## Claim C8 — `Connection: close` on every request -/

/-- **C8, counterexample.** Not every request the client issues carries the
connection-reuse-disabling header: the query submit and query retrieve POSTs
of `perform_search` pass no `headers` argument at all. -/
theorem claim_C8_counterexample :
    submitRequest ∈ clientRequests ∧
    disablesConnectionReuse submitRequest = false ∧
    retrieveRequest ∈ clientRequests ∧
    disablesConnectionReuse retrieveRequest = false := by
  decide

/-- **C8, amended.** The health probe, configure, rerank and fetch-results
requests carry the `Connection: close` header; the query submit and query
retrieve requests carry no headers and hence use the session's default
persistent connection. -/
theorem claim_C8_theorem :
    disablesConnectionReuse probeRequest = true ∧
    disablesConnectionReuse configureRequest = true ∧
    disablesConnectionReuse rerankRequest = true ∧
    disablesConnectionReuse resultsRequest = true ∧
    disablesConnectionReuse submitRequest = false ∧
    disablesConnectionReuse retrieveRequest = false ∧
    submitRequest.headers = [] ∧ retrieveRequest.headers = [] := by
  decide

/-! ## Claim C9 — the health probe -/

/-- **C9, counterexample.** The probe is not a single GET with no retries:
against an always-503 backend one `check_backend_connection` call issues
`MAX_RETRIES + 1 = 11` low-level GET requests, because the session mounted
by `create_retry_session` retries 502/503/504 internally — and the check
ends with the advisory indicator set to disconnected. -/
theorem claim_C9_counterexample :
    (check_backend_connection (fun _ _ => .status 503)).events.length =
      MAX_RETRIES + 1 ∧
    (check_backend_connection (fun _ _ => .status 503)).events.length ≠ 1 ∧
    (check_backend_connection (fun _ _ => .status 503)).result =
      .returned .disconnected := by
  decide

/-- **C9, amended.** Per check the probe makes exactly one invocation of its
body (the decorator never re-invokes it, because the body's
`except Exception` swallows every exception, so the probe also never raises
— it only returns an advisory indicator and thus cannot prevent
configuration or search operations from running); it sleeps never; the one
`session.get` of the liveness path issues between 1 and `MAX_RETRIES + 1`
low-level GETs (the session retries transient statuses and connection
errors internally); and the request uses the fixed timeout `TIMEOUT`. -/
theorem claim_C9_theorem (lowLevel : Nat → Nat → LowLevelOutcome) :
    (check_backend_connection lowLevel).attempts = 1 ∧
    (check_backend_connection lowLevel).sleeps = [] ∧
    (∃ a, (check_backend_connection lowLevel).result = .returned a) ∧
    1 ≤ (check_backend_connection lowLevel).events.length ∧
    (check_backend_connection lowLevel).events.length ≤ MAX_RETRIES + 1 ∧
    probeRequest.timeout = TIMEOUT ∧ probeRequest.method = "GET" := by
  have h : check_backend_connection lowLevel =
      ⟨.returned (match (sessionCall (lowLevel 0)).1 with
                  | .response c =>
                    if c = 200 then .connected else .disconnected
                  | .exception => .disconnected),
        1, [], List.replicate (sessionCall (lowLevel 0)).2 ()⟩ :=
    withRetry_ok rfl
  rw [h]
  refine ⟨rfl, rfl, ⟨_, rfl⟩, ?_, ?_, rfl, rfl⟩
  · simpa using sessionRun_count_pos (MAX_RETRIES + 1) 0 (by decide)
  · simpa using sessionRun_count_le (MAX_RETRIES + 1) 0

end VectorSearch
